import Mathlib

/-!
Verification development for `l5kit/rasterization/satellite_rasterizer.py`.

The module under study is `SatelliteRasterizer`: it owns a satellite base
image and a calibration transform from world coordinates to satellite-pixel
coordinates, and per call produces a crop of the base image centered and
oriented around an agent pose.

Modelling conventions:
* Machine floats are modelled by exact rationals `ℚ`; numpy float arithmetic
  is modelled as exact field arithmetic.
* An image (`np.ndarray` of shape rows x cols x channels) is a nested list
  `List (List (List ℚ))`; the integer-valued variant is `List (List (List ℤ))`.
* The external collaborators that the source imports from other modules
  (`rotation33_as_yaw`, `transform_point`, `world_to_image_pixels_matrix`,
  `get_sat_image_crop_scaled`, `np.linalg.inv`, `np.linalg.norm`) are
  abstract function parameters bundled in the `Ext` structure: their bodies
  are not part of the source file, only their call sites are, and the claims
  under study concern the call sites.
-/

set_option autoImplicit false

namespace SatRaster

/-- 2D point / 2-vector over exact rationals. -/
abbrev Vec2 := ℚ × ℚ

/-- 3D point / 3-vector over exact rationals. -/
abbrev Vec3 := ℚ × ℚ × ℚ

/-- A 3x3 matrix (only passed through the abstract collaborators). -/
abbrev Mat3 := Fin 3 → Fin 3 → ℚ

/-- A 4x4 matrix: the `map_to_sat` calibration transform. -/
abbrev Mat4 := Fin 4 → Fin 4 → ℚ

/-- A float image: rows of pixels, each pixel a list of channel values. -/
abbrev Image := List (List (List ℚ))

/-- An integer (8-bit-range) image, the output type of `to_rgb`. -/
abbrev ImageZ := List (List (List ℤ))

/-- One record of the `history_frames` structured array: we model the two
fields the source reads, `ego_translation` (a 3-vector) and `ego_rotation`
(a 3x3 rotation matrix). -/
structure Frame where
  ego_translation : Vec3
  ego_rotation : Mat3

/-- One record of an agents structured array: the source reads `centroid`
(a 2-vector) and `yaw` (a scalar). -/
structure Agent where
  centroid : Vec2
  yaw : ℚ
  deriving DecidableEq

/-- The external collaborator functions used by the source file.  Their
implementations live outside `satellite_rasterizer.py` (in
`l5kit.geometry`, `satellite_image.py`, and numpy); the source only calls
them, so they are abstract here. -/
structure Ext where
  /-- `rotation33_as_yaw` from `l5kit.geometry`. -/
  rotation33_as_yaw : Mat3 → ℚ
  /-- `transform_point` from `l5kit.geometry`, at 2D points with a 3x3 matrix. -/
  transform_point2 : Vec2 → Mat3 → Vec2
  /-- `transform_point` from `l5kit.geometry`, at 3D points with a 4x4 matrix. -/
  transform_point3 : Vec3 → Mat4 → Vec3
  /-- `world_to_image_pixels_matrix` from `l5kit.geometry`: arguments are
  raster_size, pixel_size, ego_translation_m, ego_yaw_rad,
  ego_center_in_image_ratio. -/
  world_to_image_pixels_matrix : ℕ × ℕ → Vec2 → Vec3 → ℚ → Vec2 → Mat3
  /-- `np.linalg.inv` on 3x3 matrices. -/
  inv3 : Mat3 → Mat3
  /-- `np.linalg.norm` on 3-vectors (Euclidean norm). -/
  norm3 : Vec3 → ℚ
  /-- `get_sat_image_crop_scaled` from `satellite_image.py`: arguments are
  sat_image, crop_size, sat_translation, yaw, pixel_size, sat_pixel_scale,
  and the resampling mode. -/
  get_sat_image_crop_scaled : Image → ℕ × ℕ → Vec3 → ℚ → Vec2 → ℚ → ℤ → Image

/-- `cv2.INTER_LINEAR`, the default resampling mode of the constructor. -/
def INTER_LINEAR : ℤ := 1

/-- Apply `f` to every channel value of a float image. -/
def imMap (f : ℚ → ℚ) (im : Image) : Image :=
  im.map (fun row => row.map (fun px => px.map f))

/-- Apply an integer-valued `f` to every channel value of a float image. -/
def imMapZ (f : ℚ → ℤ) (im : Image) : ImageZ :=
  im.map (fun row => row.map (fun px => px.map f))

/-- Cast an integer image to a float image. -/
def imZtoQ (im : ImageZ) : Image :=
  im.map (fun row => row.map (fun px => px.map (fun k : ℤ => (k : ℚ))))

/-- `arr.astype(np.float32) / 255`: divide every channel value by 255. -/
def imDiv255 (im : Image) : Image := imMap (fun v => v / 255) im

/-- Every channel value of the image satisfies `p`. -/
def imAll (p : ℚ → Prop) (im : Image) : Prop :=
  ∀ row ∈ im, ∀ px ∈ row, ∀ v ∈ px, p v

/-- Every channel value of the integer image satisfies `p`. -/
def imAllZ (p : ℤ → Prop) (im : ImageZ) : Prop :=
  ∀ row ∈ im, ∀ px ∈ row, ∀ v ∈ px, p v

/-- Truncation toward zero: the conversion a C-style cast such as numpy's
`astype(np.uint8)` applies to an in-range floating value. -/
def truncQ (x : ℚ) : ℤ := if 0 ≤ x then ⌊x⌋ else ⌈x⌉

/-- The engine state: the fields stored by `SatelliteRasterizer.__init__`.
`interp` is the source's `interpolation` attribute (a cv2 flag). -/
structure SatelliteRasterizer where
  raster_size : ℕ × ℕ
  pixel_size : Vec2
  ego_center : Vec2
  map_im : Image
  map_to_sat : Mat4
  interp : ℤ
  map_pixel_scale : ℚ

/-- `SatelliteRasterizer.__init__`: stores the constructor arguments and
computes the cached metric pixel scale
`(1 / norm(map_to_sat[0, 0:3]) + 1 / norm(map_to_sat[1, 0:3])) / 2`. -/
def SatelliteRasterizer.init (E : Ext) (raster_size : ℕ × ℕ) (pixel_size : Vec2)
    (ego_center : Vec2) (map_im : Image) (map_to_sat : Mat4) (interp : ℤ) :
    SatelliteRasterizer :=
  { raster_size := raster_size
    pixel_size := pixel_size
    ego_center := ego_center
    map_im := map_im
    map_to_sat := map_to_sat
    interp := interp
    map_pixel_scale :=
      (1 / E.norm3 (map_to_sat 0 0, map_to_sat 0 1, map_to_sat 0 2)
        + 1 / E.norm3 (map_to_sat 1 0, map_to_sat 1 1, map_to_sat 1 2)) / 2 }

/-- The `if agent is None` branch of `rasterize`: the chosen translation and
yaw.  With no agent, the most recent frame's ego translation and the yaw of
its rotation matrix; with an agent, the agent's centroid with the frame's
ego elevation (`ego_translation[-1]`) appended, and the agent's own yaw. -/
def chosenPose (E : Ext) (frame0 : Frame) (agent : Option Agent) : Vec3 × ℚ :=
  match agent with
  | none => (frame0.ego_translation, E.rotation33_as_yaw frame0.ego_rotation)
  | some a => ((a.centroid.1, a.centroid.2, frame0.ego_translation.2.2), a.yaw)

/-- The body of `rasterize` after the pose has been chosen: build the
world-to-raster matrix, invert it at the raster's center pixel, re-project
through `map_to_sat`, crop with negated yaw, flip vertically, divide by 255. -/
def rasterizeFromPose (E : Ext) (self : SatelliteRasterizer)
    (ego_translation : Vec3) (ego_yaw : ℚ) : Image :=
  let world_to_image_space := E.world_to_image_pixels_matrix self.raster_size
    self.pixel_size ego_translation ego_yaw self.ego_center
  let center_pixel : Vec2 :=
    ((self.raster_size.1 : ℚ) * (1 / 2), (self.raster_size.2 : ℚ) * (1 / 2))
  let world_translation := E.transform_point2 center_pixel (E.inv3 world_to_image_space)
  let sat_translation := E.transform_point3
    (world_translation.1, world_translation.2, ego_translation.2.2) self.map_to_sat
  let sat_im := E.get_sat_image_crop_scaled self.map_im self.raster_size
    sat_translation (-ego_yaw) self.pixel_size self.map_pixel_scale self.interp
  imDiv255 sat_im.reverse

/-- `SatelliteRasterizer.rasterize`.  `history_frames[0]` on an empty array
raises, modelled by `none`; otherwise the pose is chosen from the first
frame and the crop pipeline runs.  `history_agents` is a parameter of the
source method that its body never reads. -/
def rasterize (E : Ext) (self : SatelliteRasterizer) (history_frames : List Frame)
    (history_agents : List (List Agent)) (agent : Option Agent) : Option Image :=
  match history_frames with
  | [] => none
  | frame0 :: _ =>
    let p := chosenPose E frame0 agent
    some (rasterizeFromPose E self p.1 p.2)

/-- The `rasterize` method viewed as a state transformer on the engine
object: the source method contains no assignment to `self`, so the output
state is the input state. -/
def SatelliteRasterizer.rasterizeM (E : Ext) (self : SatelliteRasterizer)
    (history_frames : List Frame) (history_agents : List (List Agent))
    (agent : Option Agent) : SatelliteRasterizer × Option Image :=
  (self, rasterize E self history_frames history_agents agent)

/-- `SatelliteRasterizer.to_rgb`: `(in_im * 255).astype(np.uint8)`.  The
cast truncates toward zero (its behaviour on values outside the uint8 range
is not defined by numpy and not modelled). -/
def to_rgb (in_im : Image) : ImageZ :=
  imMapZ (fun v => truncQ (v * 255)) in_im

/-! ### The module-level asset loader `_load_image_and_metadata` -/

/-- The Python exceptions that can surface from `_load_image_and_metadata`:
`FileNotFoundError` (from `DataManager.require` or `open`), `TypeError`
(from subscripting `None`), and a JSON decoding error (from `json.load`). -/
inductive PyErr where
  | fileNotFoundError
  | typeError
  | jsonDecodeError
  deriving DecidableEq

/-- The parsed JSON metadata mapping (opaque to the source file). -/
abbrev Metadata := List (String × String)

/-- Index of the last occurrence of `c` in `l`, if any. -/
def lastIdx (c : Char) (l : List Char) : Option ℕ :=
  l.enum.foldl (fun acc p => if p.2 = c then some p.1 else acc) none

/-- The root part of `os.path.splitext` for a POSIX path: everything before
the extension.  The extension starts at the last dot, provided that dot
lies inside the basename and is preceded there by some non-dot character
(leading dots of the basename never start an extension). -/
def splitext_root (p : String) : String :=
  let cs := p.toList
  let s0 : ℕ := match lastIdx '/' cs with
    | none => 0
    | some s => s + 1
  match lastIdx '.' cs with
  | none => p
  | some d =>
    if s0 ≤ d then
      if ((cs.drop s0).take (d - s0)).any (fun ch => ch ≠ '.') then
        String.mk (cs.take d)
      else p
    else p

/-- `image[..., ::-1]`: reverse the last (channel) axis of an image,
turning BGR channel order into RGB. -/
def channelReverse (im : Image) : Image :=
  im.map (fun row => row.map (fun px => px.reverse))

/-- `_load_image_and_metadata(image_key, data_manager)`.  The collaborators
are abstract: `require` is `data_manager.require` (raises
`FileNotFoundError` when the key cannot be resolved), `imread` is
`cv2.imread` (`none` models its `None` return on an unreadable image), and
`json_load` models `open` + `json.load` on the metadata path.

Faithful to the source, the channel-reversing subscript
`cv2.imread(image_path)[..., ::-1]` is applied before the `None` check, so
an unreadable image surfaces as a `TypeError` (subscripting `None`); the
subsequent `if image is None: raise FileNotFoundError` of the source is
unreachable. -/
def _load_image_and_metadata (require : String → Except PyErr String)
    (imread : String → Option Image) (json_load : String → Except PyErr Metadata)
    (image_key : String) : Except PyErr (Image × Metadata) :=
  let image_metadata_key := splitext_root image_key ++ ".json"
  match require image_key with
  | .error e => .error e
  | .ok image_path =>
    match require image_metadata_key with
    | .error e => .error e
    | .ok image_metadata_path =>
      match imread image_path with
      | none => .error .typeError
      | some raw =>
        let image := channelReverse raw
        match json_load image_metadata_path with
        | .error e => .error e
        | .ok metadata => .ok (image, metadata)

/-! ### Concrete fixtures used by the witness theorems -/

/-- A concrete instantiation of the external collaborators: every function
returns a fixed value, so the pipeline can be evaluated on it. -/
def E0 : Ext where
  rotation33_as_yaw := fun _ => 7
  transform_point2 := fun p _ => p
  transform_point3 := fun p _ => p
  world_to_image_pixels_matrix := fun _ _ _ _ _ => fun _ _ => 0
  inv3 := id
  norm3 := fun _ => 1
  get_sat_image_crop_scaled := fun _ _ _ _ _ _ _ => [[[42]]]

/-- A concrete 4x4 calibration matrix. -/
def m40 : Mat4 := fun _ _ => 1

/-- A concrete engine built by the constructor. -/
def self0 : SatelliteRasterizer :=
  SatelliteRasterizer.init E0 (224, 224) (1 / 2, 1 / 2) (1 / 4, 1 / 2) [[[5]]] m40 1

/-- A concrete history frame: ego at world (100, 200, 10). -/
def f0 : Frame := ⟨(100, 200, 10), fun _ _ => 0⟩

/-- A concrete agent at the same planar position as `f0`'s ego, with yaw
equal to `E0.rotation33_as_yaw` of `f0`'s rotation. -/
def a0 : Agent := ⟨(100, 200), 7⟩

/-- A resolver for which every key exists (it resolves to itself). -/
def require0 : String → Except PyErr String := fun k => .ok k

/-- A `cv2.imread` that fails on every path: the image file is unreadable. -/
def imreadNone : String → Option Image := fun _ => none

/-- A JSON loader that always succeeds with an empty mapping. -/
def json0 : String → Except PyErr Metadata := fun _ => .ok []

/-! ## Helper lemmas -/

/-- Dividing an image with values in [0, 255] by 255 (after any row
reversal) yields values in [0, 1]. -/
theorem imAll_div255_reverse {s : Image}
    (h : imAll (fun v => 0 ≤ v ∧ v ≤ 255) s) :
    imAll (fun v => 0 ≤ v ∧ v ≤ 1) (imDiv255 s.reverse) := by
  intro row hrow px hpx v hv
  simp only [imDiv255, imMap] at hrow
  obtain ⟨r, hr, rfl⟩ := List.mem_map.mp hrow
  obtain ⟨q, hq, rfl⟩ := List.mem_map.mp hpx
  obtain ⟨w, hw, rfl⟩ := List.mem_map.mp hv
  have hm := h r (List.mem_reverse.mp hr) q hq w hw
  exact ⟨div_nonneg hm.1 (by norm_num), (div_le_one (by norm_num)).mpr hm.2⟩

/-- Truncation toward zero is the identity on integer values. -/
theorem truncQ_intCast (k : ℤ) : truncQ (k : ℚ) = k := by
  unfold truncQ
  split <;> simp

/-! ## Claim theorems -/

/-- C2: if no agent is supplied, `rasterize` uses the most recent
historical frame's ego translation and the yaw extracted from its rotation
matrix; if an agent is supplied, it uses the agent's centroid with the
frame's ego elevation (the last component of `ego_translation`) appended,
and the agent's own yaw field. -/
theorem rasterize_pose_selection (E : Ext) (self : SatelliteRasterizer)
    (f : Frame) (rest : List Frame) (ha : List (List Agent)) (a : Agent) :
    rasterize E self (f :: rest) ha none
      = some (rasterizeFromPose E self f.ego_translation
          (E.rotation33_as_yaw f.ego_rotation))
    ∧ rasterize E self (f :: rest) ha (some a)
      = some (rasterizeFromPose E self
          (a.centroid.1, a.centroid.2, f.ego_translation.2.2) a.yaw) :=
  ⟨rfl, rfl⟩

/-- C3: the constructor caches `map_pixel_scale` as the average of the
reciprocals of the norms of the first two rows' 3-element rotational
sub-blocks of `map_to_sat`, and a `rasterize` call leaves the engine (hence
the cached scalar) unchanged. -/
theorem init_map_pixel_scale (E E' : Ext) (rs : ℕ × ℕ) (ps ec : Vec2)
    (im : Image) (m2s : Mat4) (mode : ℤ) (hf : List Frame)
    (ha : List (List Agent)) (ag : Option Agent) :
    (SatelliteRasterizer.init E rs ps ec im m2s mode).map_pixel_scale
      = (1 / E.norm3 (m2s 0 0, m2s 0 1, m2s 0 2)
          + 1 / E.norm3 (m2s 1 0, m2s 1 1, m2s 1 2)) / 2
    ∧ ((SatelliteRasterizer.init E rs ps ec im m2s mode).rasterizeM E' hf ha ag).1
      = SatelliteRasterizer.init E rs ps ec im m2s mode :=
  ⟨rfl, rfl⟩

/-- C9: `rasterize`, viewed as a method call on the engine object, mutates
no field: the engine state after the call is the state before it, and in
particular `raster_size`, `pixel_size`, `ego_center`, `map_im`,
`map_to_sat`, the resampling mode and `map_pixel_scale` are unchanged. -/
theorem rasterize_no_mutation (E : Ext) (self : SatelliteRasterizer)
    (hf : List Frame) (ha : List (List Agent)) (ag : Option Agent) :
    (SatelliteRasterizer.rasterizeM E self hf ha ag).1 = self
    ∧ (SatelliteRasterizer.rasterizeM E self hf ha ag).1.raster_size = self.raster_size
    ∧ (SatelliteRasterizer.rasterizeM E self hf ha ag).1.pixel_size = self.pixel_size
    ∧ (SatelliteRasterizer.rasterizeM E self hf ha ag).1.ego_center = self.ego_center
    ∧ (SatelliteRasterizer.rasterizeM E self hf ha ag).1.map_im = self.map_im
    ∧ (SatelliteRasterizer.rasterizeM E self hf ha ag).1.map_to_sat = self.map_to_sat
    ∧ (SatelliteRasterizer.rasterizeM E self hf ha ag).1.interp = self.interp
    ∧ (SatelliteRasterizer.rasterizeM E self hf ha ag).1.map_pixel_scale
        = self.map_pixel_scale :=
  ⟨rfl, rfl, rfl, rfl, rfl, rfl, rfl, rfl⟩

/-- C10: the output of `rasterize` does not depend on the `history_agents`
argument: two calls differing only in it return the same image. -/
theorem rasterize_ignores_history_agents (E : Ext) (self : SatelliteRasterizer)
    (hf : List Frame) (ha ha' : List (List Agent)) (ag : Option Agent) :
    rasterize E self hf ha ag = rasterize E self hf ha' ag :=
  rfl

/-- C8: on a key whose files both resolve but whose image data is
unreadable (`cv2.imread` returns `None`), `_load_image_and_metadata`
surfaces a `TypeError` — the channel-reversing subscript runs before the
`None` check — and not the `FileNotFoundError` promised by its own
docstring. -/
theorem load_image_unreadable_raises_typeerror :
    _load_image_and_metadata require0 imreadNone json0 "maps/sat.png"
      = .error .typeError
    ∧ (Except.error PyErr.typeError : Except PyErr (Image × Metadata))
      ≠ .error .fileNotFoundError :=
  ⟨rfl, by simp only [ne_eq, Except.error.injEq]; decide⟩

/-- C1: for every call, the crop center in satellite-pixel coordinates is
obtained by inverting the world-to-raster transform, applying the inverse
to the raster's center pixel `(raster_size.1, raster_size.2) * (0.5, 0.5)`,
appending the pose's original z, and mapping the resulting 3D point through
`map_to_sat`; the crop primitive is invoked at exactly that center. -/
theorem rasterize_crop_center_composition (E : Ext) (self : SatelliteRasterizer)
    (f : Frame) (rest : List Frame) (ha : List (List Agent)) (ag : Option Agent)
    (w2i : Mat3)
    (hw : w2i = E.world_to_image_pixels_matrix self.raster_size self.pixel_size
        (chosenPose E f ag).1 (chosenPose E f ag).2 self.ego_center)
    (w : Vec2)
    (hwt : w = E.transform_point2
        ((self.raster_size.1 : ℚ) * (1 / 2), (self.raster_size.2 : ℚ) * (1 / 2))
        (E.inv3 w2i))
    (c : Vec3)
    (hc : c = E.transform_point3 (w.1, w.2, (chosenPose E f ag).1.2.2) self.map_to_sat) :
    rasterize E self (f :: rest) ha ag
      = some (imDiv255 (List.reverse (E.get_sat_image_crop_scaled self.map_im
          self.raster_size c (-(chosenPose E f ag).2) self.pixel_size
          self.map_pixel_scale self.interp))) := by
  subst hw hwt hc
  rfl

/-- C1 witness: the composition evaluated at a concrete engine, frame and
collaborator instantiation. -/
theorem rasterize_crop_center_composition_witness :
    rasterize E0 self0 [f0] [] none
      = some (imDiv255 (List.reverse (E0.get_sat_image_crop_scaled self0.map_im
          self0.raster_size (112, 112, 10) (-(7 : ℚ)) self0.pixel_size
          self0.map_pixel_scale self0.interp))) :=
  rasterize_crop_center_composition E0 self0 f0 [] [] none
    (E0.world_to_image_pixels_matrix self0.raster_size self0.pixel_size
      (chosenPose E0 f0 none).1 (chosenPose E0 f0 none).2 self0.ego_center) rfl
    (112, 112)
    (by norm_num [E0, self0, SatelliteRasterizer.init, Prod.ext_iff])
    (112, 112, 10)
    (by norm_num [E0, self0, SatelliteRasterizer.init, chosenPose, f0, Prod.ext_iff])

/-- C4: the crop primitive is invoked with rotation angle equal to the
negation of the chosen pose yaw, together with the satellite image, the
configured raster size, the computed satellite-pixel crop center, the
configured pixel size, the cached `map_pixel_scale` and the configured
resampling mode; the result (flipped and normalized) is what `rasterize`
returns. -/
theorem rasterize_negated_yaw_invocation (E : Ext) (self : SatelliteRasterizer)
    (f : Frame) (rest : List Frame) (ha : List (List Agent)) (ag : Option Agent)
    (c : Vec3)
    (hc : c = E.transform_point3
        ((E.transform_point2
            ((self.raster_size.1 : ℚ) * (1 / 2), (self.raster_size.2 : ℚ) * (1 / 2))
            (E.inv3 (E.world_to_image_pixels_matrix self.raster_size self.pixel_size
              (chosenPose E f ag).1 (chosenPose E f ag).2 self.ego_center))).1,
         (E.transform_point2
            ((self.raster_size.1 : ℚ) * (1 / 2), (self.raster_size.2 : ℚ) * (1 / 2))
            (E.inv3 (E.world_to_image_pixels_matrix self.raster_size self.pixel_size
              (chosenPose E f ag).1 (chosenPose E f ag).2 self.ego_center))).2,
         (chosenPose E f ag).1.2.2) self.map_to_sat) :
    rasterize E self (f :: rest) ha ag
      = some (imDiv255 ((E.get_sat_image_crop_scaled self.map_im self.raster_size
          c (-(chosenPose E f ag).2) self.pixel_size self.map_pixel_scale
          self.interp).reverse)) := by
  subst hc
  rfl

/-- C4 witness: the invocation evaluated at a concrete engine, frame and
collaborator instantiation (chosen pose yaw 7, so rotation angle -7). -/
theorem rasterize_negated_yaw_invocation_witness :
    rasterize E0 self0 [f0] [] none
      = some (imDiv255 ((E0.get_sat_image_crop_scaled self0.map_im
          self0.raster_size (112, 112, 10) (-(7 : ℚ)) self0.pixel_size
          self0.map_pixel_scale self0.interp).reverse)) :=
  rasterize_negated_yaw_invocation E0 self0 f0 [] [] none
    (112, 112, 10)
    (by norm_num [E0, self0, SatelliteRasterizer.init, chosenPose, f0, Prod.ext_iff])

/-- C5: after cropping, the image is first flipped vertically (row order
reversed) and then divided by 255, and nothing else; when the crop's values
lie in the 8-bit range [0, 255], the returned values lie in [0, 1]. -/
theorem rasterize_flip_then_normalize (E : Ext) (self : SatelliteRasterizer)
    (t : Vec3) (y : ℚ) (s : Image)
    (hs : s = E.get_sat_image_crop_scaled self.map_im self.raster_size
        (E.transform_point3
          ((E.transform_point2
              ((self.raster_size.1 : ℚ) * (1 / 2), (self.raster_size.2 : ℚ) * (1 / 2))
              (E.inv3 (E.world_to_image_pixels_matrix self.raster_size
                self.pixel_size t y self.ego_center))).1,
           (E.transform_point2
              ((self.raster_size.1 : ℚ) * (1 / 2), (self.raster_size.2 : ℚ) * (1 / 2))
              (E.inv3 (E.world_to_image_pixels_matrix self.raster_size
                self.pixel_size t y self.ego_center))).2,
           t.2.2) self.map_to_sat)
        (-y) self.pixel_size self.map_pixel_scale self.interp)
    (h : imAll (fun v => 0 ≤ v ∧ v ≤ 255) s) :
    rasterizeFromPose E self t y = imDiv255 s.reverse
    ∧ imAll (fun v => 0 ≤ v ∧ v ≤ 1) (rasterizeFromPose E self t y) := by
  subst hs
  exact ⟨rfl, imAll_div255_reverse h⟩

/-- C5 witness: at a concrete instantiation whose crop returns the single
in-range value 42, the returned image is the flipped, 255-divided crop. -/
theorem rasterize_flip_then_normalize_witness :
    imAll (fun v => 0 ≤ v ∧ v ≤ 255) [[[(42 : ℚ)]]]
    ∧ (rasterizeFromPose E0 self0 (100, 200, 10) 0
        = imDiv255 (List.reverse [[[(42 : ℚ)]]])
      ∧ imAll (fun v => 0 ≤ v ∧ v ≤ 1) (rasterizeFromPose E0 self0 (100, 200, 10) 0)) :=
  ⟨by norm_num [imAll],
    rasterize_flip_then_normalize E0 self0 (100, 200, 10) 0 [[[(42 : ℚ)]]]
      rfl (by norm_num [imAll])⟩

/-- C6 counterexample: the claim `to_rgb x = round(x * 255)` fails on the
code, which truncates: at the in-range pixel value `0.6 / 255` the code
returns 0 while `round(0.6) = 1`. -/
theorem to_rgb_round_claim_false :
    imAll (fun v => 0 ≤ v ∧ v ≤ 1) [[[(3 / 5 : ℚ) / 255]]]
    ∧ to_rgb [[[(3 / 5 : ℚ) / 255]]] ≠ [[[round (((3 / 5 : ℚ) / 255) * 255)]]] := by
  refine ⟨by norm_num [imAll], fun hcontra => ?_⟩
  have h : truncQ ((3 / 5 : ℚ) / 255 * 255) = round ((3 / 5 : ℚ) / 255 * 255) := by
    simpa [to_rgb, imMapZ] using hcontra
  rw [show ((3 / 5 : ℚ) / 255 * 255) = 3 / 5 by norm_num] at h
  rw [truncQ, if_pos (by norm_num : (0 : ℚ) ≤ 3 / 5), round_eq] at h
  have h0 : (⌊(3 / 5 : ℚ)⌋ : ℤ) = 0 := by norm_num [Int.floor_eq_iff]
  have h1 : (⌊(3 / 5 : ℚ) + 1 / 2⌋ : ℤ) = 1 := by norm_num [Int.floor_eq_iff]
  rw [h0, h1] at h
  exact absurd h (by decide)

/-- C6 amended: `to_rgb` multiplies by 255 and truncates toward zero —
`to_rgb x = ⌊x * 255⌋` elementwise on [0, 1]-valued images — and it is an
exact inverse of the normalization on 8-bit images: normalizing an integer
image with values in [0, 255] and applying `to_rgb` returns it unchanged. -/
theorem to_rgb_truncates (x : Image) (hx : imAll (fun v => 0 ≤ v ∧ v ≤ 1) x)
    (y : ImageZ) (hy : imAllZ (fun k => 0 ≤ k ∧ k ≤ 255) y) :
    to_rgb x = imMapZ (fun v => ⌊v * 255⌋) x
    ∧ to_rgb (imDiv255 (imZtoQ y)) = y := by
  constructor
  · unfold to_rgb imMapZ
    refine List.map_congr_left ?_
    intro r hr
    refine List.map_congr_left ?_
    intro q hq
    refine List.map_congr_left ?_
    intro v hv
    have h0 : 0 ≤ v * 255 := mul_nonneg (hx r hr q hq v hv).1 (by norm_num)
    simp [truncQ, h0]
  · have hfun : ∀ k : ℤ, truncQ ((k : ℚ) / 255 * 255) = k := by
      intro k
      rw [div_mul_cancel₀ _ (by norm_num : (255 : ℚ) ≠ 0)]
      exact truncQ_intCast k
    have hpx : ∀ q : List ℤ,
        List.map (fun v => truncQ (v * 255))
          (List.map (fun v => v / 255) (List.map (fun k : ℤ => (k : ℚ)) q)) = q := by
      intro q
      rw [List.map_map, List.map_map]
      exact (List.map_congr_left (fun k _ => hfun k)).trans (List.map_id q)
    have hrow : ∀ r : List (List ℤ),
        List.map (fun px => List.map (fun v => truncQ (v * 255)) px)
          (List.map (fun px => List.map (fun v => v / 255) px)
            (List.map (fun px => List.map (fun k : ℤ => (k : ℚ)) px) r)) = r := by
      intro r
      rw [List.map_map, List.map_map]
      exact (List.map_congr_left (fun q _ => hpx q)).trans (List.map_id r)
    unfold to_rgb imMapZ imDiv255 imMap imZtoQ
    rw [List.map_map, List.map_map]
    exact (List.map_congr_left (fun r _ => hrow r)).trans (List.map_id y)

/-- C6 amended witness: concrete images, one float-valued in [0, 1] and one
integer-valued in [0, 255]. -/
theorem to_rgb_truncates_witness :
    imAll (fun v => 0 ≤ v ∧ v ≤ 1) [[[(1 / 2 : ℚ)]]]
    ∧ imAllZ (fun k => 0 ≤ k ∧ k ≤ 255) [[[(7 : ℤ)]]]
    ∧ (to_rgb [[[(1 / 2 : ℚ)]]] = imMapZ (fun v => ⌊v * 255⌋) [[[(1 / 2 : ℚ)]]]
      ∧ to_rgb (imDiv255 (imZtoQ [[[(7 : ℤ)]]])) = [[[(7 : ℤ)]]]) :=
  ⟨by norm_num [imAll], by norm_num [imAllZ],
    to_rgb_truncates [[[(1 / 2 : ℚ)]]] (by norm_num [imAll])
      [[[(7 : ℤ)]]] (by norm_num [imAllZ])⟩

/-- C7: when the supplied agent's centroid equals the planar part of the
most recent frame's ego translation and its yaw equals the yaw extracted
from that frame's rotation matrix, rasterizing around the agent and
rasterizing around the ego produce identical output. -/
theorem rasterize_agent_matches_ego (E : Ext) (self : SatelliteRasterizer)
    (f : Frame) (rest : List Frame) (ha : List (List Agent)) (a : Agent)
    (h1 : a.centroid = (f.ego_translation.1, f.ego_translation.2.1))
    (h2 : a.yaw = E.rotation33_as_yaw f.ego_rotation) :
    rasterize E self (f :: rest) ha (some a)
      = rasterize E self (f :: rest) ha none := by
  simp [rasterize, chosenPose, h1, h2]

/-- C7 witness: a concrete agent at the concrete frame's ego pose. -/
theorem rasterize_agent_matches_ego_witness :
    a0.centroid = (f0.ego_translation.1, f0.ego_translation.2.1)
    ∧ rasterize E0 self0 [f0] [] (some a0) = rasterize E0 self0 [f0] [] none :=
  ⟨by decide,
    rasterize_agent_matches_ego E0 self0 f0 [] [] a0 (by decide) (by decide)⟩

end SatRaster
